import Mathlib

/-!
Shallow embedding of the provisioning poller and the link-account handler of
`src/server.js` (metaapi-node-service), together with theorems settling the
frozen claims about them.

The central function is `waitAccountConnected` (src/server.js lines 78-93):

  async function waitAccountConnected(accountId, maxWaitMs = 90000) {
    const start = Date.now();
    while (Date.now() - start < maxWaitMs) {
      const r = await fetch(PROV + ..., { headers: h() });
      const j = await r.json();
      const state = j.state;
      const cs = j.connectionStatus;
      const err = j.errorCode;
      if (state === 'DEPLOYED' && cs === 'CONNECTED')
        return { ok: true, state, connectionStatus: cs };
      if (state === 'DEPLOY_FAILED' || err)
        return { ok: false, state, connectionStatus: cs, errorCode: err, raw: j };
      await new Promise(s => setTimeout(s, 2500));
    }
    return { ok: false, error: 'Timeout waiting for CONNECTED' };
  }

Modelling decisions, all taken from the source:
* A provider snapshot is the JSON object `j`; the fields read by the loop are
  `state`, `connectionStatus` and `errorCode`, each of which may be absent
  (`Option String`, `none` for a missing or null field).
* `if (state === 'DEPLOY_FAILED' || err)` uses JavaScript truthiness on `err`:
  an absent/null `errorCode` and the empty string are falsy, any other string
  is truthy.  `truthy` models this.
* The body of the loop has no try/catch, so a rejected `fetch` (or a failing
  `r.json()`) propagates out of `waitAccountConnected` as an exception.  One
  poll is therefore a `FetchResult`: either a snapshot or an exception, and
  the loop's result is an `Outcome` with a fourth alternative `thrown` for the
  escaped rejection.
* Time: the `while` guard compares the elapsed wall-clock time with
  `maxWaitMs`.  The i-th iteration takes `d i` milliseconds of fetch/parse
  work plus the fixed 2500 ms sleep before the next guard check, so the guard
  of iteration n sees elapsed time `Σ k < n, (d k + 2500)` (`elapsedAt d n`).
  `runFuel` performs the loop with a fuel bound used only as a termination
  measure; `waitAccountConnected` passes fuel `maxWaitMs`, which can never be
  exhausted before the guard fails because every continued iteration adds at
  least 2500 ms of elapsed time (lemma `runFuel_fuel_congr` shows any
  adequate fuel gives the same result).  The second component of the result
  counts the polls (fetch attempts) performed, instrumentation used by the
  claims about poll counts; the JavaScript function does not return it.
-/

/-- A provider snapshot: the JSON object returned by
`GET /users/current/accounts/:id`, restricted to the three fields the loop
reads.  `none` models an absent or null field. -/
structure Snapshot where
  state : Option String
  connectionStatus : Option String
  errorCode : Option String
deriving Repr, DecidableEq

/-- The result of one poll: a parsed snapshot, or an exception thrown by
`fetch`/`r.json()` (there is no try/catch inside the loop). -/
inductive FetchResult where
  | ok (j : Snapshot)
  | exn
deriving Repr, DecidableEq

/-- The value `waitAccountConnected` settles with, mirroring the three JS
return shapes plus `thrown` for a rejection escaping the loop:
`connected` = `{ ok:true, state, connectionStatus }`,
`failed` = `{ ok:false, state, connectionStatus, errorCode, raw }`,
`timedOut` = `{ ok:false, error:'Timeout waiting for CONNECTED' }`. -/
inductive Outcome where
  | connected (state connectionStatus : Option String)
  | failed (state connectionStatus errorCode : Option String) (raw : Snapshot)
  | timedOut
  | thrown
deriving Repr, DecidableEq

/-- JavaScript truthiness of the `errorCode` field: absent/null and the empty
string are falsy, every other string is truthy. -/
def truthy : Option String → Bool
  | none => false
  | some s => !(s == "")

/-- `state === 'DEPLOYED' && cs === 'CONNECTED'` (line 87). -/
def isSuccess (j : Snapshot) : Bool :=
  j.state == some "DEPLOYED" && j.connectionStatus == some "CONNECTED"

/-- `state === 'DEPLOY_FAILED' || err` (line 88). -/
def isFailure (j : Snapshot) : Bool :=
  j.state == some "DEPLOY_FAILED" || truthy j.errorCode

/-- Whether an outcome is the success outcome (`ok: true` in the JS value). -/
def Outcome.isConnected : Outcome → Bool
  | .connected _ _ => true
  | _ => false

/-- The `(state, connectionStatus)` pair carried by an outcome's payload, if
any: the `connected` and `failed` return objects carry both fields, the
timeout object carries neither (it is `{ ok:false, error:'Timeout waiting for
CONNECTED' }`), and a thrown rejection carries no payload at all. -/
def observedPair : Outcome → Option (Option String × Option String)
  | .connected s c => some (s, c)
  | .failed s c _ _ => some (s, c)
  | .timedOut => none
  | .thrown => none

/-- The polling loop of `waitAccountConnected`.  `p k` is the result of the
k-th fetch, `d k` the non-sleep duration of iteration k, `i` the index of the
next poll and `elapsed` the wall-clock time the `while` guard sees.  `fuel` is
a termination measure only: `waitAccountConnected` supplies fuel `maxWaitMs`,
which cannot run out while the guard still holds (each continued iteration
adds `d i + 2500 ≥ 2500` to `elapsed`, see `runFuel_fuel_congr`), and on the
unreachable exhaustion branch the loop exits exactly as the guard-failure
branch does.  The second result component counts polls performed. -/
def runFuel (p : Nat → FetchResult) (d : Nat → Nat) (maxWaitMs : Nat) :
    Nat → Nat → Nat → Outcome × Nat
  | 0, i, _ => (Outcome.timedOut, i)
  | f + 1, i, elapsed =>
    if elapsed < maxWaitMs then
      match p i with
      | FetchResult.exn => (Outcome.thrown, i + 1)
      | FetchResult.ok j =>
        if isSuccess j then (Outcome.connected j.state j.connectionStatus, i + 1)
        else if isFailure j then
          (Outcome.failed j.state j.connectionStatus j.errorCode j, i + 1)
        else runFuel p d maxWaitMs f (i + 1) (elapsed + d i + 2500)
    else (Outcome.timedOut, i)

/-- `waitAccountConnected(accountId, maxWaitMs)` (src/server.js lines 78-93),
abstracted over the provider's answers `p` and the per-iteration fetch
durations `d`. -/
def waitAccountConnected (p : Nat → FetchResult) (d : Nat → Nat)
    (maxWaitMs : Nat) : Outcome × Nat :=
  runFuel p d maxWaitMs maxWaitMs 0 0

/-- Elapsed wall-clock time consumed by `n` consecutive loop iterations
starting at poll index `i`: fetch/parse time plus the 2500 ms sleep each. -/
def elapsedSeg (d : Nat → Nat) : Nat → Nat → Nat
  | _, 0 => 0
  | i, n + 1 => d i + 2500 + elapsedSeg d (i + 1) n

/-- Elapsed time the `while` guard sees just before poll `n` (counting from
the start of the loop). -/
def elapsedAt (d : Nat → Nat) (n : Nat) : Nat :=
  elapsedSeg d 0 n

/-!
The `POST /api/link-account` handler (src/server.js lines 178-271), restricted
to the control flow the claims are about.  The handler:
validates field presence and the token; creates the account (`createOk`,
assigned id `createdId`); optionally enables CopyFactory roles (result only
logged); deploys; on deploy failure deletes the just-created account
(`.catch(() => {})`, so the deletion's own result is ignored) and returns
400; on `dryRun` deletes and returns 200; otherwise calls
`waitAccountConnected(id, 90000)` and maps its outcome: not ok → 400 with
`{ ok:false, step:'poll', ...wait, accountId:id }`, ok → enables MetaStats
(result only logged, wrapped in its own try/catch) and returns 200 with
`{ ok:true, accountId:id, region, connection:wait }`.  The whole body is in a
try/catch that maps any escaped exception (in particular a rejection from
`waitAccountConnected`) to 400 `{ ok:false, error:String(e.message||e) }`.
-/

/-- The request body fields the handler's control flow depends on.
`hasBrokerServer`/`hasLogin`/`hasPassword` are JS truthiness of the fields,
`hasCopyFactoryRoles` is `copyFactoryRoles?.length` being truthy. -/
structure LinkRequest where
  hasBrokerServer : Bool
  hasLogin : Bool
  hasPassword : Bool
  hasCopyFactoryRoles : Bool
  dryRun : Bool
deriving Repr, DecidableEq

/-- The behaviour of the external provider during one handler run: results of
the create/deploy calls, the id assigned on creation, and the snapshot
sequence and fetch durations seen by the polling loop. -/
structure ProviderBehavior where
  createOk : Bool
  createdId : String
  deployOk : Bool
  snapshots : Nat → FetchResult
  fetchDur : Nat → Nat

/-- Outbound provider calls the handler performs, in order. -/
inductive ProviderCall where
  | createAccount
  | enableCopyFactory (id : String)
  | deploy (id : String)
  | deleteAccount (id : String)
  | pollAccount (id : String)
  | enableStats (id : String)
deriving Repr, DecidableEq

/-- The handler's HTTP response, one constructor per `return` in the source. -/
inductive LinkResponse where
  | missingFields
  | tokenMissing
  | createFailed
  | deployFailed
  | dryRunOk
  | pollFailed (outcome : Outcome) (accountId : String)
  | linked (accountId : String) (outcome : Outcome)
  | caught
deriving Repr, DecidableEq

/-- The HTTP status each return in the source attaches to its response. -/
def httpStatus : LinkResponse → Nat
  | .missingFields => 400
  | .tokenMissing => 500
  | .createFailed => 400
  | .deployFailed => 400
  | .dryRunOk => 200
  | .pollFailed _ _ => 400
  | .linked _ _ => 200
  | .caught => 400

/-- The `POST /api/link-account` handler: response plus the ordered trace of
outbound provider calls it performed. -/
def linkAccount (hasToken : Bool) (req : LinkRequest) (w : ProviderBehavior) :
    LinkResponse × List ProviderCall :=
  if !(req.hasBrokerServer && req.hasLogin && req.hasPassword) then
    (.missingFields, [])
  else if !hasToken then
    (.tokenMissing, [])
  else
    if !w.createOk then (.createFailed, [ProviderCall.createAccount])
    else
      let id := w.createdId
      let t1 := [ProviderCall.createAccount] ++
        (if req.hasCopyFactoryRoles then [ProviderCall.enableCopyFactory id] else [])
      let t2 := t1 ++ [ProviderCall.deploy id]
      if !w.deployOk then (.deployFailed, t2 ++ [ProviderCall.deleteAccount id])
      else if req.dryRun then (.dryRunOk, t2 ++ [ProviderCall.deleteAccount id])
      else
        let wres := waitAccountConnected w.snapshots w.fetchDur 90000
        let t3 := t2 ++ [ProviderCall.pollAccount id]
        match wres.1 with
        | Outcome.thrown => (.caught, t3)
        | Outcome.connected s c =>
          (.linked id (Outcome.connected s c), t3 ++ [ProviderCall.enableStats id])
        | Outcome.failed s c e raw =>
          (.pollFailed (Outcome.failed s c e raw) id, t3)
        | Outcome.timedOut => (.pollFailed Outcome.timedOut id, t3)

/-! Concrete snapshots, providers and worlds used by witnesses and
counterexamples. -/

/-- A snapshot in the desired terminal-success condition. -/
def snapConnected : Snapshot :=
  { state := some "DEPLOYED", connectionStatus := some "CONNECTED", errorCode := none }

/-- A success-condition snapshot that also carries a non-null error code. -/
def snapConnectedErr : Snapshot :=
  { state := some "DEPLOYED", connectionStatus := some "CONNECTED", errorCode := some "E_AUTH" }

/-- A non-terminal snapshot: still deploying, not connected, no error. -/
def snapDeploying : Snapshot :=
  { state := some "DEPLOYING", connectionStatus := some "DISCONNECTED", errorCode := none }

/-- A non-terminal-for-the-code snapshot whose `errorCode` is the empty
string: non-null, but falsy in JavaScript. -/
def snapEmptyErr : Snapshot :=
  { state := some "DEPLOYING", connectionStatus := some "DISCONNECTED", errorCode := some "" }

/-- A terminal deploy-failure snapshot. -/
def snapDeployFailed : Snapshot :=
  { state := some "DEPLOY_FAILED", connectionStatus := some "DISCONNECTED", errorCode := some "E_SRV" }

/-- Zero fetch/parse duration for every iteration. -/
def dZero : Nat → Nat := fun _ => 0

/-- A provider that never reaches a terminal condition. -/
def provNonTerm : Nat → FetchResult := fun _ => FetchResult.ok snapDeploying

/-- A provider stuck on a snapshot with a non-null but empty `errorCode`. -/
def provEmptyErr : Nat → FetchResult := fun _ => FetchResult.ok snapEmptyErr

/-- A provider whose fetches throw on the first two polls and which reports
the success condition from the third poll on. -/
def provExnThenOk : Nat → FetchResult := fun i =>
  if i < 2 then FetchResult.exn else FetchResult.ok snapConnected

/-- A provider already in the success state on every poll. -/
def provConnected : Nat → FetchResult := fun _ => FetchResult.ok snapConnected

/-- A provider reporting a terminal deploy failure on every poll. -/
def provDeployFailed : Nat → FetchResult := fun _ => FetchResult.ok snapDeployFailed

/-- A provider that is non-terminal on polls 0 and 1 and reports a terminal
deploy failure on poll 2 (the third poll). -/
def provFailThird : Nat → FetchResult := fun i =>
  if i < 2 then FetchResult.ok snapDeploying else FetchResult.ok snapDeployFailed

/-- A request with all mandatory fields present, no roles, no dry run. -/
def reqFull : LinkRequest :=
  { hasBrokerServer := true, hasLogin := true, hasPassword := true,
    hasCopyFactoryRoles := false, dryRun := false }

/-- A world where creation and deployment succeed and the account connects on
the first poll. -/
def worldConnected : ProviderBehavior :=
  { createOk := true, createdId := "acc1", deployOk := true,
    snapshots := provConnected, fetchDur := dZero }

/-- A world where creation and deployment succeed but polling observes a
terminal deploy failure. -/
def worldDeployFailedPoll : ProviderBehavior :=
  { createOk := true, createdId := "acc2", deployOk := true,
    snapshots := provDeployFailed, fetchDur := dZero }

/-- A world where creation succeeds and the deploy call itself fails. -/
def worldDeployCallFails : ProviderBehavior :=
  { createOk := true, createdId := "acc3", deployOk := false,
    snapshots := provConnected, fetchDur := dZero }

/-! Step equations for `runFuel`, one per exit of the loop body. -/

/-- Exhausted fuel: the loop exits with the timeout result (with the fuel
`waitAccountConnected` supplies, this branch coincides with the guard-failure
exit; see `runFuel_fuel_congr`). -/
theorem runFuel_zero (p : Nat → FetchResult) (d : Nat → Nat) (m i e : Nat) :
    runFuel p d m 0 i e = (Outcome.timedOut, i) := rfl

/-- Guard failure: `Date.now() - start < maxWaitMs` is false, the loop exits
with `{ ok:false, error:'Timeout waiting for CONNECTED' }`. -/
theorem runFuel_stop (p : Nat → FetchResult) (d : Nat → Nat) (m f i e : Nat)
    (he : ¬ e < m) :
    runFuel p d m (f + 1) i e = (Outcome.timedOut, i) := by
  simp [runFuel, he]

/-- A fetch (or `r.json()`) throws: the rejection escapes the loop. -/
theorem runFuel_exn (p : Nat → FetchResult) (d : Nat → Nat) (m f i e : Nat)
    (he : e < m) (hj : p i = FetchResult.exn) :
    runFuel p d m (f + 1) i e = (Outcome.thrown, i + 1) := by
  simp [runFuel, he, hj]

/-- The snapshot satisfies the success condition: return `{ ok:true, ... }`. -/
theorem runFuel_success (p : Nat → FetchResult) (d : Nat → Nat) (m f i e : Nat)
    (j : Snapshot) (he : e < m) (hj : p i = FetchResult.ok j)
    (hs : isSuccess j = true) :
    runFuel p d m (f + 1) i e =
      (Outcome.connected j.state j.connectionStatus, i + 1) := by
  simp [runFuel, he, hj, hs]

/-- The snapshot satisfies the failure condition (and not the success
condition, which is checked first): return `{ ok:false, ..., raw:j }`. -/
theorem runFuel_failure (p : Nat → FetchResult) (d : Nat → Nat) (m f i e : Nat)
    (j : Snapshot) (he : e < m) (hj : p i = FetchResult.ok j)
    (hs : isSuccess j = false) (hf : isFailure j = true) :
    runFuel p d m (f + 1) i e =
      (Outcome.failed j.state j.connectionStatus j.errorCode j, i + 1) := by
  simp [runFuel, he, hj, hs, hf]

/-- A non-terminal snapshot: sleep 2500 ms and loop. -/
theorem runFuel_next (p : Nat → FetchResult) (d : Nat → Nat) (m f i e : Nat)
    (j : Snapshot) (he : e < m) (hj : p i = FetchResult.ok j)
    (hs : isSuccess j = false) (hf : isFailure j = false) :
    runFuel p d m (f + 1) i e = runFuel p d m f (i + 1) (e + d i + 2500) := by
  simp [runFuel, he, hj, hs, hf]

/-- Each polled prefix contributes at least one millisecond (indeed 2500) per
iteration, so the iteration count is bounded by the elapsed time. -/
theorem le_elapsedSeg (d : Nat → Nat) : ∀ n i, n ≤ elapsedSeg d i n := by
  intro n
  induction n with
  | zero => intro i; simp [elapsedSeg]
  | succ n ih =>
    intro i
    have h := ih (i + 1)
    simp only [elapsedSeg]
    omega

/-- The poll counter never decreases: the result's count is at least the
index the loop started from. -/
theorem runFuel_count_ge (p : Nat → FetchResult) (d : Nat → Nat) (m : Nat) :
    ∀ fuel i e, i ≤ (runFuel p d m fuel i e).2 := by
  intro fuel
  induction fuel with
  | zero => intro i e; rw [runFuel_zero]
  | succ f ih =>
    intro i e
    by_cases he : e < m
    · cases hj : p i with
      | exn => rw [runFuel_exn p d m f i e he hj]; omega
      | ok j =>
        cases hs : isSuccess j with
        | true => rw [runFuel_success p d m f i e j he hj hs]; omega
        | false =>
          cases hf : isFailure j with
          | true => rw [runFuel_failure p d m f i e j he hj hs hf]; omega
          | false =>
            rw [runFuel_next p d m f i e j he hj hs hf]
            have h := ih (i + 1) (e + d i + 2500)
            omega
    · rw [runFuel_stop p d m f i e he]

/-- Fuel is irrelevant once it is adequate: whenever the remaining budget is
covered by 2500 ms per unit of fuel, adding fuel does not change the result.
With the initial fuel `maxWaitMs` supplied by `waitAccountConnected`
(`m ≤ 0 + 2500 * m`), the fuel can therefore never be the binding constraint:
`runFuel` computes exactly the source's unbounded `while` loop. -/
theorem runFuel_fuel_congr (p : Nat → FetchResult) (d : Nat → Nat) (m : Nat) :
    ∀ fuel fuel' i e, m ≤ e + 2500 * fuel → fuel ≤ fuel' →
      runFuel p d m fuel i e = runFuel p d m fuel' i e := by
  intro fuel
  induction fuel with
  | zero =>
    intro fuel' i e hm _
    have he : ¬ e < m := by omega
    cases fuel' with
    | zero => rfl
    | succ f' => rw [runFuel_zero, runFuel_stop p d m f' i e he]
  | succ f ih =>
    intro fuel' i e hm hle
    cases fuel' with
    | zero => omega
    | succ f' =>
      by_cases he : e < m
      · cases hj : p i with
        | exn => rw [runFuel_exn p d m f i e he hj, runFuel_exn p d m f' i e he hj]
        | ok j =>
          cases hs : isSuccess j with
          | true =>
            rw [runFuel_success p d m f i e j he hj hs,
              runFuel_success p d m f' i e j he hj hs]
          | false =>
            cases hf : isFailure j with
            | true =>
              rw [runFuel_failure p d m f i e j he hj hs hf,
                runFuel_failure p d m f' i e j he hj hs hf]
            | false =>
              rw [runFuel_next p d m f i e j he hj hs hf,
                runFuel_next p d m f' i e j he hj hs hf]
              exact ih f' (i + 1) (e + d i + 2500) (by omega) (by omega)
      · rw [runFuel_stop p d m f i e he, runFuel_stop p d m f' i e he]

/-- Running past a non-terminal prefix: if the `n` polls starting at index `i`
all return non-terminal snapshots and the guard still holds at the end of the
prefix, the loop state advances to poll index `i + n` with the corresponding
elapsed time and spent fuel. -/
theorem runFuel_skip (p : Nat → FetchResult) (d : Nat → Nat) (m : Nat) :
    ∀ n fuel i e,
      (∀ k, k < n → ∃ j, p (i + k) = FetchResult.ok j ∧
        isSuccess j = false ∧ isFailure j = false) →
      e + elapsedSeg d i n < m → n ≤ fuel →
      runFuel p d m fuel i e =
        runFuel p d m (fuel - n) (i + n) (e + elapsedSeg d i n) := by
  intro n
  induction n with
  | zero => intro fuel i e _ _ _; simp [elapsedSeg]
  | succ n ih =>
    intro fuel i e hpre hbud hfuel
    cases fuel with
    | zero => omega
    | succ f =>
      obtain ⟨j0, hj0, hs0, hf0⟩ := hpre 0 (Nat.succ_pos n)
      rw [Nat.add_zero] at hj0
      have hseg : elapsedSeg d i (n + 1) = d i + 2500 + elapsedSeg d (i + 1) n := rfl
      have he : e < m := by omega
      rw [runFuel_next p d m f i e j0 he hj0 hs0 hf0]
      have h1 : f + 1 - (n + 1) = f - n := by omega
      have h2 : i + (n + 1) = (i + 1) + n := by omega
      have h3 : e + elapsedSeg d i (n + 1) = (e + d i + 2500) + elapsedSeg d (i + 1) n := by
        omega
      rw [h1, h2, h3]
      exact ih f (i + 1) (e + d i + 2500)
        (fun k hk => by
          have h := hpre (k + 1) (by omega)
          rwa [show i + (k + 1) = (i + 1) + k by omega] at h)
        (by omega) (by omega)

/-- The loop settles with the success object exactly when one of the polls it
performed returned a single snapshot whose `state` is `'DEPLOYED'` and whose
`connectionStatus` is `'CONNECTED'` at the same time, and the reported fields
are the fields of that one snapshot. -/
theorem runFuel_connected_iff (p : Nat → FetchResult) (d : Nat → Nat)
    (m : Nat) (ls cs : Option String) :
    ∀ fuel i e,
      (runFuel p d m fuel i e).1 = Outcome.connected ls cs ↔
      ∃ k j, i ≤ k ∧ k < (runFuel p d m fuel i e).2 ∧ p k = FetchResult.ok j ∧
        j.state = some "DEPLOYED" ∧ j.connectionStatus = some "CONNECTED" ∧
        ls = j.state ∧ cs = j.connectionStatus := by
  intro fuel
  induction fuel with
  | zero =>
    intro i e
    rw [runFuel_zero]
    constructor
    · intro h; simp at h
    · rintro ⟨k, j, h1, h2, -, -, -, -, -⟩; simp at h2; omega
  | succ f ih =>
    intro i e
    by_cases he : e < m
    · cases hj : p i with
      | exn =>
        rw [runFuel_exn p d m f i e he hj]
        constructor
        · intro h; simp at h
        · rintro ⟨k, j, h1, h2, h3, -, -, -, -⟩
          simp at h2
          have hk : k = i := by omega
          subst hk
          rw [hj] at h3
          cases h3
      | ok j =>
        cases hs : isSuccess j with
        | true =>
          rw [runFuel_success p d m f i e j he hj hs]
          have hs' : j.state = some "DEPLOYED" ∧ j.connectionStatus = some "CONNECTED" := by
            simpa [isSuccess] using hs
          constructor
          · intro h
            rw [Outcome.connected.injEq] at h
            exact ⟨i, j, Nat.le_refl i, by simp, hj, hs'.1, hs'.2, h.1.symm, h.2.symm⟩
          · rintro ⟨k, j', h1, h2, h3, -, -, h6, h7⟩
            simp at h2
            have hk : k = i := by omega
            subst hk
            rw [hj] at h3
            injection h3 with hjj
            subst hjj
            rw [h6, h7]
        | false =>
          cases hf : isFailure j with
          | true =>
            rw [runFuel_failure p d m f i e j he hj hs hf]
            constructor
            · intro h; simp at h
            · rintro ⟨k, j', h1, h2, h3, h4, h5, -, -⟩
              simp at h2
              have hk : k = i := by omega
              subst hk
              rw [hj] at h3
              injection h3 with hjj
              subst hjj
              simp [isSuccess, h4, h5] at hs
          | false =>
            rw [runFuel_next p d m f i e j he hj hs hf]
            rw [ih (i + 1) (e + d i + 2500)]
            constructor
            · rintro ⟨k, j', h1, h2, h3, h4, h5, h6, h7⟩
              exact ⟨k, j', by omega, h2, h3, h4, h5, h6, h7⟩
            · rintro ⟨k, j', h1, h2, h3, h4, h5, h6, h7⟩
              refine ⟨k, j', ?_, h2, h3, h4, h5, h6, h7⟩
              by_cases hk : k = i
              · subst hk
                rw [hj] at h3
                injection h3 with hjj
                subst hjj
                simp [isSuccess, h4, h5] at hs
              · omega
    · rw [runFuel_stop p d m f i e he]
      constructor
      · intro h; simp at h
      · rintro ⟨k, j, h1, h2, -, -, -, -, -⟩; simp at h2; omega

/-- When the loop settles with the failure object, its four payload fields
(`state`, `connectionStatus`, `errorCode` and `raw`) all come from the single
snapshot of the last poll it performed, a snapshot satisfying the failure
condition. -/
theorem runFuel_failed_src (p : Nat → FetchResult) (d : Nat → Nat) (m : Nat) :
    ∀ fuel i e s c er raw,
      (runFuel p d m fuel i e).1 = Outcome.failed s c er raw →
      ∃ k, i ≤ k ∧ k < (runFuel p d m fuel i e).2 ∧
        p k = FetchResult.ok raw ∧ s = raw.state ∧ c = raw.connectionStatus ∧
        er = raw.errorCode ∧ isFailure raw = true := by
  intro fuel
  induction fuel with
  | zero =>
    intro i e s c er raw h
    rw [runFuel_zero] at h
    simp at h
  | succ f ih =>
    intro i e s c er raw h
    by_cases he : e < m
    · cases hj : p i with
      | exn =>
        rw [runFuel_exn p d m f i e he hj] at h ⊢
        simp at h
      | ok j =>
        cases hs : isSuccess j with
        | true =>
          rw [runFuel_success p d m f i e j he hj hs] at h ⊢
          simp at h
        | false =>
          cases hf : isFailure j with
          | true =>
            rw [runFuel_failure p d m f i e j he hj hs hf] at h ⊢
            rw [Outcome.failed.injEq] at h
            obtain ⟨h1, h2, h3, h4⟩ := h
            subst h4
            exact ⟨i, Nat.le_refl i, by simp, hj, h1.symm, h2.symm, h3.symm, hf⟩
          | false =>
            rw [runFuel_next p d m f i e j he hj hs hf] at h ⊢
            obtain ⟨k, h1, h2, h3⟩ := ih (i + 1) (e + d i + 2500) s c er raw h
            exact ⟨k, by omega, h2, h3⟩
    · rw [runFuel_stop p d m f i e he] at h
      simp at h

/-- If every poll returns a snapshot and no returned snapshot satisfies the
success condition or the failure condition, the loop can only exit with the
timeout object. -/
theorem runFuel_timedOut_of_nonterm (p : Nat → FetchResult) (d : Nat → Nat)
    (m : Nat)
    (h : ∀ k, ∃ j, p k = FetchResult.ok j ∧ isSuccess j = false ∧
      isFailure j = false) :
    ∀ fuel i e, (runFuel p d m fuel i e).1 = Outcome.timedOut := by
  intro fuel
  induction fuel with
  | zero => intro i e; rw [runFuel_zero]
  | succ f ih =>
    intro i e
    by_cases he : e < m
    · obtain ⟨j, hj, hs, hf⟩ := h i
      rw [runFuel_next p d m f i e j he hj hs hf]
      exact ih (i + 1) (e + d i + 2500)
    · rw [runFuel_stop p d m f i e he]

/-- Claim C1: for every sequence of provider snapshots, `waitAccountConnected`
returns the `Connected` outcome if and only if some single fetched snapshot
has lifecycle state `'DEPLOYED'` and connection status `'CONNECTED'`
simultaneously, and the reported lifecycle and connection fields are the two
fields of that one snapshot — success is never assembled from the lifecycle
field of one poll and the connection field of a different poll. -/
theorem waitAccountConnected_connected_iff_single_snapshot
    (p : Nat → FetchResult) (d : Nat → Nat) (m : Nat) (ls cs : Option String) :
    (waitAccountConnected p d m).1 = Outcome.connected ls cs ↔
    ∃ k j, k < (waitAccountConnected p d m).2 ∧ p k = FetchResult.ok j ∧
      j.state = some "DEPLOYED" ∧ j.connectionStatus = some "CONNECTED" ∧
      ls = j.state ∧ cs = j.connectionStatus := by
  unfold waitAccountConnected
  rw [runFuel_connected_iff]
  constructor
  · rintro ⟨k, j, -, h⟩; exact ⟨k, j, h⟩
  · rintro ⟨k, j, h⟩; exact ⟨k, j, Nat.zero_le k, h⟩

/-- Claim C4: if every poll returns a snapshot and no fetched snapshot
satisfies the success condition or the failure condition before
`maxWaitDuration` elapses, `waitAccountConnected` returns the `TimedOut`
outcome rather than polling indefinitely. -/
theorem waitAccountConnected_timeout (p : Nat → FetchResult) (d : Nat → Nat)
    (m : Nat)
    (h : ∀ k, ∃ j, p k = FetchResult.ok j ∧ isSuccess j = false ∧
      isFailure j = false) :
    (waitAccountConnected p d m).1 = Outcome.timedOut :=
  runFuel_timedOut_of_nonterm p d m h m 0 0

/-- Witness for claim C4: a provider that is forever deploying makes a
5-second wait time out. -/
theorem waitAccountConnected_timeout_witness :
    (waitAccountConnected provNonTerm dZero 5000).1 = Outcome.timedOut :=
  waitAccountConnected_timeout provNonTerm dZero 5000
    (fun _ => ⟨snapDeploying, rfl, by decide, by decide⟩)

/-- Claim C8: against a provider already in the success state that reports
the same success snapshot on every poll, two sequential invocations of
`waitAccountConnected` (possibly with different fetch timings and deadlines)
both return `Connected` after one poll, with identical observed
lifecycle-state and connection-status fields. -/
theorem waitAccountConnected_idempotent (p : Nat → FetchResult)
    (d d' : Nat → Nat) (m m' : Nat) (s : Snapshot)
    (hp : ∀ i, p i = FetchResult.ok s) (hs : isSuccess s = true)
    (hm : 0 < m) (hm' : 0 < m') :
    waitAccountConnected p d m =
      (Outcome.connected s.state s.connectionStatus, 1) ∧
    waitAccountConnected p d' m' =
      (Outcome.connected s.state s.connectionStatus, 1) := by
  constructor
  · unfold waitAccountConnected
    obtain ⟨f, rfl⟩ : ∃ f, m = f + 1 := ⟨m - 1, by omega⟩
    rw [runFuel_success p d (f + 1) f 0 0 s hm (hp 0) hs]
  · unfold waitAccountConnected
    obtain ⟨f, rfl⟩ : ∃ f, m' = f + 1 := ⟨m' - 1, by omega⟩
    rw [runFuel_success p d' (f + 1) f 0 0 s hm' (hp 0) hs]

/-- Witness for claim C8: a constantly connected provider yields `Connected`
with the same fields on both of two sequential invocations. -/
theorem waitAccountConnected_idempotent_witness :
    waitAccountConnected provConnected dZero 90000 =
      (Outcome.connected snapConnected.state snapConnected.connectionStatus, 1) ∧
    waitAccountConnected provConnected dZero 90000 =
      (Outcome.connected snapConnected.state snapConnected.connectionStatus, 1) :=
  waitAccountConnected_idempotent provConnected dZero dZero 90000 90000
    snapConnected (fun _ => rfl) (by decide) (by decide) (by decide)

/-- Claim C9: the success check takes precedence over the failure check — a
snapshot whose state is `'DEPLOYED'` and whose connection status is
`'CONNECTED'` makes the poller return `Connected` even when that same
snapshot carries a non-null `errorCode`. -/
theorem waitAccountConnected_success_precedence (p : Nat → FetchResult)
    (d : Nat → Nat) (m n : Nat) (j : Snapshot)
    (hpre : ∀ k, k < n → ∃ jk, p k = FetchResult.ok jk ∧
      isSuccess jk = false ∧ isFailure jk = false)
    (hn : p n = FetchResult.ok j)
    (hst : j.state = some "DEPLOYED")
    (hcs : j.connectionStatus = some "CONNECTED")
    (herr : j.errorCode ≠ none)
    (hbud : elapsedAt d n < m) :
    waitAccountConnected p d m =
      (Outcome.connected j.state j.connectionStatus, n + 1) := by
  have hs : isSuccess j = true := by simp [isSuccess, hst, hcs]
  have hnm : n < m := by
    have h := le_elapsedSeg d n 0
    unfold elapsedAt at hbud
    omega
  unfold waitAccountConnected
  rw [runFuel_skip p d m n m 0 0
    (fun k hk => by simpa using hpre k hk)
    (by simpa [elapsedAt] using hbud) (by omega)]
  obtain ⟨f, hf⟩ : ∃ f, m - n = f + 1 := ⟨m - n - 1, by omega⟩
  rw [Nat.zero_add, Nat.zero_add, hf]
  rw [runFuel_success p d m f n (elapsedSeg d 0 n) j
    (by simpa [elapsedAt] using hbud) hn hs]

/-- Witness for claim C9: a first-poll snapshot that is deployed and
connected but carries error code `"E_AUTH"` still yields `Connected`. -/
theorem waitAccountConnected_success_precedence_witness :
    waitAccountConnected (fun _ => FetchResult.ok snapConnectedErr) dZero 90000 =
      (Outcome.connected snapConnectedErr.state snapConnectedErr.connectionStatus, 1) :=
  waitAccountConnected_success_precedence
    (fun _ => FetchResult.ok snapConnectedErr) dZero 90000 0 snapConnectedErr
    (fun k hk => absurd hk (Nat.not_lt_zero k)) rfl (by decide) (by decide)
    (by decide) (by decide)

/-- Claim C2, counterexample: a snapshot whose `errorCode` is the empty
string is non-null, so the claim's failure condition holds on the very first
poll and the claim predicts an immediate `Failed`; but the code's test
`state === 'DEPLOY_FAILED' || err` evaluates JavaScript truthiness of `err`,
for which the empty string is falsy, so the loop keeps polling and, with
`maxWaitMs = 10000`, times out after 4 polls instead. -/
theorem waitAccountConnected_nonNull_errorCode_counterexample :
    snapEmptyErr.errorCode = some "" ∧ some "" ≠ (none : Option String) ∧
    isFailure snapEmptyErr = false ∧
    waitAccountConnected provEmptyErr dZero 10000 = (Outcome.timedOut, 4) :=
  ⟨rfl, by decide, by decide, by decide⟩

/-- Claim C2 as amended: if the first snapshot satisfying a terminal
condition is a failure snapshot — lifecycle state `'DEPLOY_FAILED'`, or a
truthy (non-null and non-empty) `errorCode` — and it arrives within the wait
budget on poll `n`, `waitAccountConnected` returns `Failed` on that very
poll, carrying the lifecycle state, connection status, error code and raw
snapshot observed there, and performs exactly `n + 1` polls, none after the
terminal failure. -/
theorem waitAccountConnected_failed_immediate (p : Nat → FetchResult)
    (d : Nat → Nat) (m n : Nat) (j : Snapshot)
    (hpre : ∀ k, k < n → ∃ jk, p k = FetchResult.ok jk ∧
      isSuccess jk = false ∧ isFailure jk = false)
    (hn : p n = FetchResult.ok j)
    (hs : isSuccess j = false) (hf : isFailure j = true)
    (hbud : elapsedAt d n < m) :
    waitAccountConnected p d m =
      (Outcome.failed j.state j.connectionStatus j.errorCode j, n + 1) := by
  have hnm : n < m := by
    have h := le_elapsedSeg d n 0
    unfold elapsedAt at hbud
    omega
  unfold waitAccountConnected
  rw [runFuel_skip p d m n m 0 0
    (fun k hk => by simpa using hpre k hk)
    (by simpa [elapsedAt] using hbud) (by omega)]
  obtain ⟨f, hfe⟩ : ∃ f, m - n = f + 1 := ⟨m - n - 1, by omega⟩
  rw [Nat.zero_add, Nat.zero_add, hfe]
  rw [runFuel_failure p d m f n (elapsedSeg d 0 n) j
    (by simpa [elapsedAt] using hbud) hn hs hf]

/-- Witness for the amended claim C2: a provider that is non-terminal on the
first two polls and reports a terminal deploy failure on the third poll makes
the loop return `Failed` after exactly three polls, not four. -/
theorem waitAccountConnected_failed_immediate_witness :
    waitAccountConnected provFailThird dZero 90000 =
      (Outcome.failed snapDeployFailed.state snapDeployFailed.connectionStatus
        snapDeployFailed.errorCode snapDeployFailed, 3) :=
  waitAccountConnected_failed_immediate provFailThird dZero 90000 2
    snapDeployFailed
    (fun k hk => ⟨snapDeploying, by simp [provFailThird, hk], by decide, by decide⟩)
    (by decide) (by decide) (by decide) (by decide)

/-- Claim C3, counterexample: the loop body has no try/catch, so a provider
whose fetch throws on polls 1 and 2 and reports the success condition from
poll 3 on does not yield `Connected`; the very first rejection escapes the
loop after one poll. -/
theorem waitAccountConnected_transport_exn_counterexample :
    waitAccountConnected provExnThenOk dZero 90000 = (Outcome.thrown, 1) ∧
    (waitAccountConnected provExnThenOk dZero 90000).1.isConnected = false ∧
    provExnThenOk 2 = FetchResult.ok snapConnected ∧
    isSuccess snapConnected = true :=
  ⟨by decide, by decide, by decide, by decide⟩

/-- Claim C3 as amended: a transport exception raised by an individual
snapshot fetch is not caught inside the loop — the first throwing poll
(within the wait budget, after a non-terminal prefix) aborts
`waitAccountConnected` with a `thrown` rejection immediately after that poll,
so transient fetch failures are not retried and the rejection is left to the
enclosing handler's try/catch. -/
theorem waitAccountConnected_exn_aborts (p : Nat → FetchResult)
    (d : Nat → Nat) (m n : Nat)
    (hpre : ∀ k, k < n → ∃ jk, p k = FetchResult.ok jk ∧
      isSuccess jk = false ∧ isFailure jk = false)
    (hn : p n = FetchResult.exn)
    (hbud : elapsedAt d n < m) :
    waitAccountConnected p d m = (Outcome.thrown, n + 1) := by
  have hnm : n < m := by
    have h := le_elapsedSeg d n 0
    unfold elapsedAt at hbud
    omega
  unfold waitAccountConnected
  rw [runFuel_skip p d m n m 0 0
    (fun k hk => by simpa using hpre k hk)
    (by simpa [elapsedAt] using hbud) (by omega)]
  obtain ⟨f, hfe⟩ : ∃ f, m - n = f + 1 := ⟨m - n - 1, by omega⟩
  rw [Nat.zero_add, Nat.zero_add, hfe]
  rw [runFuel_exn p d m f n (elapsedSeg d 0 n)
    (by simpa [elapsedAt] using hbud) hn]

/-- Witness for the amended claim C3: the provider whose first fetch throws
aborts a 5-second wait with the rejection after exactly one poll. -/
theorem waitAccountConnected_exn_aborts_witness :
    waitAccountConnected provExnThenOk dZero 5000 = (Outcome.thrown, 1) :=
  waitAccountConnected_exn_aborts provExnThenOk dZero 5000 0
    (fun k hk => absurd hk (Nat.not_lt_zero k)) (by decide) (by decide)

/-- Claim C5, counterexample: the timeout return is the bare object
`{ ok:false, error:'Timeout waiting for CONNECTED' }` — after two polls that
both observed a lifecycle/connection pair, the `TimedOut` outcome carries no
observed pair at all, contradicting the claim that the structured result
includes the last observed pair on the `TimedOut` outcome as well. -/
theorem waitAccountConnected_timedOut_lacks_pair_counterexample :
    (waitAccountConnected provNonTerm dZero 5000).2 = 2 ∧
    provNonTerm 0 = FetchResult.ok snapDeploying ∧
    (waitAccountConnected provNonTerm dZero 5000).1 = Outcome.timedOut ∧
    observedPair (waitAccountConnected provNonTerm dZero 5000).1 = none :=
  ⟨by decide, by decide, by decide, by decide⟩

/-- Claim C5 as amended: on the `Failed` outcome the caller receives a
structured result whose lifecycle state, connection status, error code and
raw snapshot all come from the single terminal snapshot of the last poll
(in particular it includes the observed lifecycle/connection pair), while
the `TimedOut` outcome is the fixed error object and carries no observed
pair. -/
theorem waitAccountConnected_failed_structured (p : Nat → FetchResult)
    (d : Nat → Nat) (m : Nat) (s c er : Option String) (raw : Snapshot)
    (h : (waitAccountConnected p d m).1 = Outcome.failed s c er raw) :
    (∃ k, k < (waitAccountConnected p d m).2 ∧ p k = FetchResult.ok raw ∧
      s = raw.state ∧ c = raw.connectionStatus ∧ er = raw.errorCode) ∧
    observedPair (waitAccountConnected p d m).1 =
      some (raw.state, raw.connectionStatus) ∧
    observedPair Outcome.timedOut = none := by
  obtain ⟨k, h1, h2, h3, h4, h5, h6, h7⟩ :=
    runFuel_failed_src p d m m 0 0 s c er raw h
  refine ⟨⟨k, h2, h3, h4, h5, h6⟩, ?_, rfl⟩
  rw [h, ← h4, ← h5]
  rfl

/-- Witness for the amended claim C5: a first-poll deploy failure produces a
`Failed` carrying exactly the snapshot's pair, error code and raw value. -/
theorem waitAccountConnected_failed_structured_witness :
    (∃ k, k < (waitAccountConnected provDeployFailed dZero 1000).2 ∧
      provDeployFailed k = FetchResult.ok snapDeployFailed ∧
      some "DEPLOY_FAILED" = snapDeployFailed.state ∧
      some "DISCONNECTED" = snapDeployFailed.connectionStatus ∧
      some "E_SRV" = snapDeployFailed.errorCode) ∧
    observedPair (waitAccountConnected provDeployFailed dZero 1000).1 =
      some (snapDeployFailed.state, snapDeployFailed.connectionStatus) ∧
    observedPair Outcome.timedOut = none :=
  waitAccountConnected_failed_structured provDeployFailed dZero 1000
    (some "DEPLOY_FAILED") (some "DISCONNECTED") (some "E_SRV")
    snapDeployFailed (by decide)

/-- Claim C7, counterexample: `waitAccountConnected` accepts no cancellation
signal of any kind — against a never-terminal provider with a budget of 10
polls there is exactly one possible execution, and it performs all 10 polls
and returns only at the deadline, so no execution returns promptly after 2 of
10 polls. -/
theorem waitAccountConnected_no_cancel_counterexample :
    waitAccountConnected provNonTerm dZero 25000 = (Outcome.timedOut, 10) ∧
    ¬ (waitAccountConnected provNonTerm dZero 25000).2 ≤ 3 :=
  ⟨by decide, by decide⟩

/-- Claim C7 as amended: `waitAccountConnected` takes only the account id and
the deadline — there is no cancellation input — so against a provider that
never reaches a terminal condition the loop performs every poll whose start
time lies within `maxWaitDuration` and returns `TimedOut` only once the
deadline has elapsed, never early. -/
theorem waitAccountConnected_polls_full_budget (p : Nat → FetchResult)
    (d : Nat → Nat) (m : Nat)
    (h : ∀ k, ∃ j, p k = FetchResult.ok j ∧ isSuccess j = false ∧
      isFailure j = false) :
    (waitAccountConnected p d m).1 = Outcome.timedOut ∧
    ∀ k, elapsedAt d k < m → k < (waitAccountConnected p d m).2 := by
  refine ⟨runFuel_timedOut_of_nonterm p d m h m 0 0, ?_⟩
  intro k hk
  have hkm : k < m := by
    have hle := le_elapsedSeg d k 0
    unfold elapsedAt at hk
    omega
  unfold waitAccountConnected
  rw [runFuel_skip p d m k m 0 0
    (fun k' _ => by simpa using h (0 + k'))
    (by simpa [elapsedAt] using hk) (by omega)]
  obtain ⟨f, hfe⟩ : ∃ f, m - k = f + 1 := ⟨m - k - 1, by omega⟩
  rw [Nat.zero_add, Nat.zero_add, hfe]
  obtain ⟨j, hj, hs, hfail⟩ := h k
  rw [runFuel_next p d m f k (elapsedSeg d 0 k) j
    (by simpa [elapsedAt] using hk) hj hs hfail]
  have hge := runFuel_count_ge p d m f (k + 1) (elapsedSeg d 0 k + d k + 2500)
  omega

/-- Witness for the amended claim C7: with a 25-second budget and a
never-terminal provider, every one of the 10 in-budget polls happens (in
particular the tenth), and the outcome is `TimedOut`. -/
theorem waitAccountConnected_polls_full_budget_witness :
    (waitAccountConnected provNonTerm dZero 25000).1 = Outcome.timedOut ∧
    9 < (waitAccountConnected provNonTerm dZero 25000).2 :=
  ⟨(waitAccountConnected_polls_full_budget provNonTerm dZero 25000
      (fun _ => ⟨snapDeploying, rfl, by decide, by decide⟩)).1,
    (waitAccountConnected_polls_full_budget provNonTerm dZero 25000
      (fun _ => ⟨snapDeploying, rfl, by decide, by decide⟩)).2 9 (by decide)⟩

/-- Claim C6: when the link-account handler reaches the polling step (fields
present, token set, create and deploy succeeded, not a dry run), the poller's
outcome is mapped to the HTTP response as: `Connected` → 200 with the outcome
payload (`{ ok:true, accountId, region, connection }`), and `Failed` or
`TimedOut` → 400 with the outcome payload spread into
`{ ok:false, step:'poll', ...wait, accountId }`, including the account id. -/
theorem linkAccount_poll_status_mapping (tok : Bool) (req : LinkRequest)
    (w : ProviderBehavior)
    (hb : req.hasBrokerServer = true) (hl : req.hasLogin = true)
    (hpw : req.hasPassword = true) (ht : tok = true)
    (hc : w.createOk = true) (hd : w.deployOk = true)
    (hdry : req.dryRun = false) :
    ((waitAccountConnected w.snapshots w.fetchDur 90000).1.isConnected = true →
      (linkAccount tok req w).1 =
        LinkResponse.linked w.createdId
          (waitAccountConnected w.snapshots w.fetchDur 90000).1 ∧
      httpStatus (linkAccount tok req w).1 = 200) ∧
    (((waitAccountConnected w.snapshots w.fetchDur 90000).1 = Outcome.timedOut ∨
      ∃ s c er raw, (waitAccountConnected w.snapshots w.fetchDur 90000).1 =
        Outcome.failed s c er raw) →
      (linkAccount tok req w).1 =
        LinkResponse.pollFailed
          (waitAccountConnected w.snapshots w.fetchDur 90000).1 w.createdId ∧
      httpStatus (linkAccount tok req w).1 = 400) := by
  constructor
  · intro hconn
    cases ho : (waitAccountConnected w.snapshots w.fetchDur 90000).1 with
    | connected s c =>
      simp [linkAccount, hb, hl, hpw, ht, hc, hd, hdry, ho, httpStatus]
    | failed s c er raw => rw [ho] at hconn; simp [Outcome.isConnected] at hconn
    | timedOut => rw [ho] at hconn; simp [Outcome.isConnected] at hconn
    | thrown => rw [ho] at hconn; simp [Outcome.isConnected] at hconn
  · intro hfail
    cases ho : (waitAccountConnected w.snapshots w.fetchDur 90000).1 with
    | connected s c =>
      rw [ho] at hfail
      rcases hfail with h | ⟨s', c', er', raw', h⟩ <;> cases h
    | failed s c er raw =>
      simp [linkAccount, hb, hl, hpw, ht, hc, hd, hdry, ho, httpStatus]
    | timedOut =>
      simp [linkAccount, hb, hl, hpw, ht, hc, hd, hdry, ho, httpStatus]
    | thrown =>
      rw [ho] at hfail
      rcases hfail with h | ⟨s', c', er', raw', h⟩ <;> cases h

/-- Witness for claim C6: a world whose account connects on the first poll
yields 200 with the linked payload, and a world whose polling observes a
terminal deploy failure yields 400 with the poll-failure payload carrying the
account id. -/
theorem linkAccount_poll_status_mapping_witness :
    ((linkAccount true reqFull worldConnected).1 =
      LinkResponse.linked worldConnected.createdId
        (waitAccountConnected worldConnected.snapshots
          worldConnected.fetchDur 90000).1 ∧
      httpStatus (linkAccount true reqFull worldConnected).1 = 200) ∧
    ((linkAccount true reqFull worldDeployFailedPoll).1 =
      LinkResponse.pollFailed
        (waitAccountConnected worldDeployFailedPoll.snapshots
          worldDeployFailedPoll.fetchDur 90000).1
        worldDeployFailedPoll.createdId ∧
      httpStatus (linkAccount true reqFull worldDeployFailedPoll).1 = 400) :=
  ⟨(linkAccount_poll_status_mapping true reqFull worldConnected
      rfl rfl rfl rfl rfl rfl rfl).1 (by decide),
   (linkAccount_poll_status_mapping true reqFull worldDeployFailedPoll
      rfl rfl rfl rfl rfl rfl rfl).2
      (Or.inr ⟨some "DEPLOY_FAILED", some "DISCONNECTED", some "E_SRV",
        snapDeployFailed, by decide⟩)⟩

/-- Claim C10: in the link-account handler, if account creation succeeded but
the deploy request fails, the handler attempts to delete the just-created
account at the provider before returning the 400 deploy-failure response, so
a failed deploy never leaves the created account behind without a deletion
attempt. -/
theorem linkAccount_deploy_failure_cleanup (tok : Bool) (req : LinkRequest)
    (w : ProviderBehavior)
    (hb : req.hasBrokerServer = true) (hl : req.hasLogin = true)
    (hpw : req.hasPassword = true) (ht : tok = true)
    (hc : w.createOk = true) (hd : w.deployOk = false) :
    (linkAccount tok req w).1 = LinkResponse.deployFailed ∧
    httpStatus (linkAccount tok req w).1 = 400 ∧
    ProviderCall.deleteAccount w.createdId ∈ (linkAccount tok req w).2 := by
  cases hroles : req.hasCopyFactoryRoles with
  | true => simp [linkAccount, hb, hl, hpw, ht, hc, hd, hroles, httpStatus]
  | false => simp [linkAccount, hb, hl, hpw, ht, hc, hd, hroles, httpStatus]

/-- Witness for claim C10: a concrete world whose deploy call fails produces
the 400 deploy-failure response with a deletion attempt in the call trace. -/
theorem linkAccount_deploy_failure_cleanup_witness :
    (linkAccount true reqFull worldDeployCallFails).1 =
      LinkResponse.deployFailed ∧
    httpStatus (linkAccount true reqFull worldDeployCallFails).1 = 400 ∧
    ProviderCall.deleteAccount worldDeployCallFails.createdId ∈
      (linkAccount true reqFull worldDeployCallFails).2 :=
  linkAccount_deploy_failure_cleanup true reqFull worldDeployCallFails
    rfl rfl rfl rfl rfl rfl
